import Mathlib

/-!
Verification of the Stripe payment lifecycle of the ZenDo task-management
backend (src/backend/server.py): the plan catalog `PREMIUM_PLANS`, the
`PaymentTransaction` ledger, and the three route handlers
`create_checkout_session` (POST /checkout), `get_checkout_status`
(GET /checkout/status/\x7bsession_id\x7d) and `handle_stripe_webhook`
(POST /webhook/stripe).

The MongoDB collections `users` and `payment_transactions` are embedded as
lists; `find_one` is `List.find?` and `update_one` updates the first matching
record (`updateFirst` below).  External effects are parameters: the Stripe
API response is an `Except` argument, and `datetime.utcnow()` is a `now : ℕ`
argument (timestamps in seconds, `timedelta(days=30)` is `thirtyDays`).
Python `float` values are embedded exactly as the IEEE-754 binary64
rationals they denote (`roundToDouble` below).
-/

/-- `⌊log2 n⌋` for `n ≥ 1` (and `0` for `n ≤ 1`), computed with explicit
fuel so that it reduces inside the kernel.  Fuel `1100` is enough for every
`n < 2 ^ 1100`, far beyond the binary64 range used in this file. -/
def log2fuel : ℕ → ℕ → ℕ
  | 0, _ => 0
  | f + 1, n => if n ≤ 1 then 0 else log2fuel f (n / 2) + 1

/-- `⌈log2 n⌉` for `n ≥ 1` (and `0` for `n ≤ 1`). -/
def clog2 (n : ℕ) : ℕ :=
  if n ≤ 1 then 0 else log2fuel 1100 (n - 1) + 1

/-- Exact rational multiplication, written out on numerators and
denominators (`Rat.divInt` renormalizes) so that it reduces inside the
kernel; equal to `a * b`. -/
def qmul (a b : ℚ) : ℚ :=
  Rat.divInt (a.num * b.num) ((a.den : ℤ) * (b.den : ℤ))

/-- `2 ^ e` as an exact rational, for an integer exponent. -/
def pow2q (e : ℤ) : ℚ :=
  if 0 ≤ e then Rat.divInt (Int.ofNat (2 ^ e.toNat)) 1
  else Rat.divInt 1 (Int.ofNat (2 ^ (-e).toNat))

/-- `|q|`, written out on the numerator so that it reduces inside the
kernel. -/
def ratAbs (q : ℚ) : ℚ :=
  if q.num < 0 then Rat.divInt (-q.num) (q.den : ℤ) else q

/-- `⌊log2 q⌋` of a positive rational `q = num / den`: for `q ≥ 1` the bit
length of `⌊q⌋`, for `q < 1` the negated ceiling log of `⌈q⁻¹⌉`. -/
def floorLog2 (q : ℚ) : ℤ :=
  if q.den ≤ q.num.toNat then Int.ofNat (log2fuel 1100 (q.num.toNat / q.den))
  else -(Int.ofNat (clog2 ((q.den + q.num.toNat - 1) / q.num.toNat)))

/-- Round a rational to the nearest integer, `⌊q + 1/2⌋` written out on the
numerator and denominator; exact ties round up. -/
def roundq (q : ℚ) : ℤ :=
  Int.fdiv (2 * q.num + (q.den : ℤ)) (2 * (q.den : ℤ))

/-- Round-to-nearest model of IEEE-754 binary64: the nearest double to a
rational `q`, as an exact rational.  For `q ≠ 0` the result is
`m * 2 ^ e` with `m = roundq (q * 2 ^ (-e))` and `e = ⌊log2 |q|⌋ - 52`, so
`|m|` has at most 53 bits.  `roundq` resolves exact ties upward rather than
to even; no value computed in this file is an exact tie, so on every input
used here this agrees with IEEE round-to-nearest-even.  Subnormals and
overflow are out of range for the values involved. -/
def roundToDouble (q : ℚ) : ℚ :=
  if q.num = 0 then Rat.divInt 0 1
  else
    let e : ℤ := floorLog2 (ratAbs q) - 52
    qmul (Rat.divInt (roundq (qmul q (pow2q (-e)))) 1) (pow2q e)

/-- The binary64 value denoted by a Python float literal with exact rational
value `q` (CPython parses a decimal literal to the nearest double). -/
def pyFloatLit (q : ℚ) : ℚ :=
  roundToDouble q

/-- Python float multiplication: the exact product, correctly rounded back
to binary64. -/
def pyMul (a b : ℚ) : ℚ :=
  roundToDouble (qmul a b)

/-- Python `int()` on a float: truncation toward zero. -/
def pyInt (q : ℚ) : ℤ :=
  Int.tdiv q.num (q.den : ℤ)

/-- One entry of the static plan catalog (server.py lines 52-56). -/
structure PlanInfo where
  price : ℚ
  name : String
  features : List String
deriving Repr, DecidableEq

/-- `PREMIUM_PLANS` (server.py lines 52-56), as an association list in source
order.  The prices are the exact binary64 values of the literals
`9.99`, `19.99`, `49.99`. -/
def PREMIUM_PLANS : List (String × PlanInfo) :=
  [ ("starter",
      ⟨pyFloatLit (Rat.divInt 999 100), "Starter Plan",
        ["Unlimited tasks", "Basic integrations"]⟩),
    ("professional",
      ⟨pyFloatLit (Rat.divInt 1999 100), "Professional Plan",
        ["Everything in Starter", "Slack integration", "Advanced analytics"]⟩),
    ("enterprise",
      ⟨pyFloatLit (Rat.divInt 4999 100), "Enterprise Plan",
        ["Everything in Professional", "Custom integrations", "Priority support"]⟩) ]

/-- The `User` pydantic model (server.py lines 81-89), restricted to its
fields; `datetime` fields are ℕ timestamps. -/
structure User where
  id : String
  username : String
  email : String
  hashed_password : String
  is_premium : Bool
  subscription_plan : Option String
  subscription_expires : Option ℕ
  created_at : ℕ
deriving Repr, DecidableEq

/-- The `PaymentTransaction` pydantic model (server.py lines 185-196).
`amount` is the exact binary64 rational; `metadata` is an association
list standing for the `Dict` field. -/
structure PaymentTransaction where
  id : String
  session_id : String
  user_id : String
  plan : String
  amount : ℚ
  currency : String
  status : String
  payment_status : String
  metadata : List (String × String)
  created_at : ℕ
  updated_at : ℕ
deriving Repr, DecidableEq

/-- The two MongoDB collections the payment lifecycle touches. -/
structure DB where
  users : List User
  payment_transactions : List PaymentTransaction
deriving Repr, DecidableEq

/-- `timedelta(days=30)` in seconds. -/
def thirtyDays : ℕ :=
  30 * 24 * 60 * 60

/-- MongoDB `update_one` semantics: apply `f` to the first record matching
`p`, leave everything else in place; a no-op when nothing matches. -/
def updateFirst {α : Type} (p : α → Bool) (f : α → α) : List α → List α
  | [] => []
  | x :: xs => if p x then f x :: xs else x :: updateFirst p f xs

/-- The response of Stripe's `checkout.Session.retrieve`, restricted to the
two fields the code reads (server.py lines 768-770). -/
structure StripeSession where
  status : String
  payment_status : String
deriving Repr, DecidableEq

/-- The response of Stripe's `checkout.Session.create`: the provider returns
a session exposing `id` and `url` (and no `session_id` attribute). -/
structure StripeCreated where
  id : String
  url : String
deriving Repr, DecidableEq

/-- The arguments `create_checkout_session` passes to Stripe's
`checkout.Session.create` (server.py lines 713-739), flattened. -/
structure StripeSessionCreateArgs where
  currency : String
  product_name : String
  unit_amount : ℤ
  quantity : ℕ
  mode : String
  success_url : String
  cancel_url : String
  metadata_user_id : String
  metadata_plan : String
  metadata_source : String
deriving Repr, DecidableEq

/-- Outcome of POST /checkout as seen by the HTTP client.  `pythonError`
marks an unhandled Python exception (FastAPI answers 500). -/
inductive CheckoutResult
  | ok (url : String) (session_id : String)
  | httpError (code : ℕ) (detail : String)
  | pythonError (detail : String)
deriving Repr, DecidableEq

/-- Outcome of GET /checkout/status/\x7bsession_id\x7d. -/
inductive StatusResult
  | ok (status : String) (payment_status : String)
  | httpError (code : ℕ) (detail : String)
  | pythonError (detail : String)
deriving Repr, DecidableEq

/-- Outcome of POST /webhook/stripe. -/
inductive WebhookResult
  | success
  | httpError (code : ℕ) (detail : String)
deriving Repr, DecidableEq

/-- A parsed Stripe webhook event, restricted to the fields the handler
reads: `event['type']` and `event['data']['object']['id']`. -/
structure StripeEvent where
  etype : String
  object_id : String
deriving Repr, DecidableEq

/-- The Stripe `checkout.Session.create` arguments built for a valid plan
(server.py lines 710-739): price in "cents" via `int(amount * 100)` on
binary64 floats, success/cancel URLs templated from the request origin,
and metadata identifying the purchasing user and plan.  `none` when the
plan is not a catalog key. -/
def checkoutSessionCreateArgs (plan origin_url uid : String) :
    Option StripeSessionCreateArgs :=
  (PREMIUM_PLANS.find? (fun p => p.1 == plan)).map (fun p =>
    { currency := "usd"
      product_name := p.2.name
      unit_amount := pyInt (pyMul p.2.price (Rat.divInt 100 1))
      quantity := 1
      mode := "payment"
      success_url := origin_url ++ "/premium/success?session_id=\x7bCHECKOUT_SESSION_ID\x7d"
      cancel_url := origin_url ++ "/premium"
      metadata_user_id := uid
      metadata_plan := plan
      metadata_source := "web_checkout" })

/-- POST /checkout, `create_checkout_session` (server.py lines 702-754).
`providerResp` is the outcome of the `stripe.checkout.Session.create` call
(`.error e` when it raises `StripeError` with message `e`); the invalid-plan
check precedes that call, so the `none` branch ignores `providerResp`.
After a successful provider call the source builds
`PaymentTransaction(session_id=session.session_id, ...,
metadata=checkout_session_request.metadata)` (lines 744-750): the session
object returned by Stripe has attributes `id` and `url` but no
`session_id`, and the name `checkout_session_request` is bound nowhere in
the module, so evaluating these arguments raises an unhandled
AttributeError/NameError before the ledger insert (line 752) and before the
return (line 754); this is the `pythonError` branch, which leaves the DB
unchanged. -/
def create_checkout_session (plan origin_url uid : String) (db : DB)
    (providerResp : Except String StripeCreated) : DB × CheckoutResult :=
  match PREMIUM_PLANS.find? (fun p => p.1 == plan) with
  | none => (db, .httpError 400 "Invalid plan")
  | some _ =>
    match providerResp with
    | .error e => (db, .httpError 400 ("Stripe error: " ++ e))
    | .ok _ =>
      (db, .pythonError "session.session_id and checkout_session_request are undefined")

/-- GET /checkout/status, `get_checkout_status` (server.py lines 756-807).
`providerResp` is the outcome of `stripe.checkout.Session.retrieve`
(`.error e` when it raises `StripeError`); the cached-completed fast path
(lines 763-764) and the 404 path return before that call, so those branches
ignore `providerResp`.  On the live path the handler persists the
provider-reported status onto the transaction (lines 775-784) and then
evaluates `checkout_status.payment_status` (line 787): the name
`checkout_status` is bound nowhere in the module (the locals are named
`status` and `payment_status`), so the handler raises an unhandled
NameError — it neither applies the entitlement (lines 788-802) nor reaches
the return (lines 804-807).  This is the `pythonError` branch. -/
def get_checkout_status (session_id uid : String) (db : DB) (now : ℕ)
    (providerResp : Except String StripeSession) : DB × StatusResult :=
  match db.payment_transactions.find?
      (fun t => t.session_id == session_id && t.user_id == uid) with
  | none => (db, .httpError 404 "Transaction not found")
  | some t =>
    if t.status == "completed" then
      (db, .ok "complete" "paid")
    else
      match providerResp with
      | .error e => (db, .httpError 400 ("Stripe error: " ++ e))
      | .ok s =>
        let ps : String := if s.payment_status == "paid" then "paid" else "unpaid"
        let upd : PaymentTransaction → PaymentTransaction := fun tr =>
          { tr with status := s.status, payment_status := ps, updated_at := now }
        let txs := updateFirst (fun tr => tr.session_id == session_id) upd
          db.payment_transactions
        let db1 : DB := { db with payment_transactions := txs }
        (db1, .pythonError "NameError: name checkout_status is not defined")

/-- POST /webhook/stripe, `handle_stripe_webhook` (server.py lines 809-857).
`stripeConfigured` models `STRIPE_API_KEY` being set (line 811).  `parsed`
is the outcome of the verify-or-parse step (lines 819-826): when a webhook
secret is configured, `stripe.Webhook.construct_event` raises on an invalid
signature; with no secret, `json.loads` raises on an unparseable body;
either exception is caught by the handler's `except` and answered with
HTTP 400 "Webhook processing failed" before any database access — the
`.error` branch.  On a parsed event, only type `checkout.session.completed`
is acted on; the transaction is looked up by the event's
`data.object.id`; if found and not already `completed`, the owning user is
granted premium (lines 835-842) and the transaction is marked
completed/paid (lines 845-852); in every parsed case the handler
acknowledges with `\x7b"status": "success"\x7d`. -/
def handle_stripe_webhook (stripeConfigured : Bool) (db : DB) (now : ℕ)
    (parsed : Except String StripeEvent) : DB × WebhookResult :=
  if stripeConfigured = false then
    (db, .httpError 400 "Stripe not configured")
  else
    match parsed with
    | .error _ => (db, .httpError 400 "Webhook processing failed")
    | .ok ev =>
      if ev.etype == "checkout.session.completed" then
        match db.payment_transactions.find?
            (fun t => t.session_id == ev.object_id) with
        | some t =>
          if t.status != "completed" then
            let grant : User → User := fun u =>
              { u with is_premium := true, subscription_plan := some t.plan,
                       subscription_expires := some (now + thirtyDays) }
            let complete : PaymentTransaction → PaymentTransaction := fun tr =>
              { tr with status := "completed", payment_status := "paid",
                        updated_at := now }
            let users1 := updateFirst (fun u => u.id == t.user_id) grant db.users
            let db1 : DB := { db with users := users1 }
            let txs2 :=
              updateFirst (fun tr => tr.session_id == ev.object_id) complete
                db1.payment_transactions
            let db2 : DB := { db1 with payment_transactions := txs2 }
            (db2, .success)
          else
            (db, .success)
        | none => (db, .success)
      else
        (db, .success)

/-- Per-user frame condition of the webhook entitlement write, relative to
the granted user id `uidT`: a record with a different id is untouched, and
every record keeps its `id`, `username`, `email`, `hashed_password` and
`created_at` (only `is_premium`, `subscription_plan` and
`subscription_expires` may change). -/
def userFrame (uidT : String) (v w : User) : Prop :=
  (v.id ≠ uidT → w = v) ∧ w.id = v.id ∧ w.username = v.username ∧
  w.email = v.email ∧ w.hashed_password = v.hashed_password ∧
  w.created_at = v.created_at

/- Concrete fixtures used by the witness theorems. -/

/-- A non-premium user. -/
def exUser : User :=
  ⟨"u1", "alice", "alice@example.com", "hp1", false, none, none, 0⟩

/-- A second, unrelated user. -/
def exOther : User :=
  ⟨"u2", "bob", "bob@example.com", "hp2", false, none, none, 0⟩

/-- The same account as `exUser` but already premium, with a grant that
expires at time 1000. -/
def exPremUser : User :=
  ⟨"u1", "alice", "alice@example.com", "hp1", true, some "starter", some 1000, 0⟩

/-- A pending starter-plan transaction of user u1 for session sess1. -/
def exPendTx : PaymentTransaction :=
  ⟨"t1", "sess1", "u1", "starter", pyFloatLit (Rat.divInt 999 100), "usd",
   "pending", "unpaid", [], 0, 0⟩

/-- An already-completed professional-plan transaction of user u1 for
session sess9. -/
def exDoneTx : PaymentTransaction :=
  ⟨"t2", "sess9", "u1", "professional", pyFloatLit (Rat.divInt 1999 100), "usd",
   "completed", "paid", [], 0, 3⟩

/-- Database with one completed transaction. -/
def exDBdone : DB :=
  ⟨[exUser, exOther], [exDoneTx]⟩

/-- Database with one pending transaction. -/
def exDBpend : DB :=
  ⟨[exUser, exOther], [exPendTx]⟩

/-- Database with a pending transaction whose owner is already premium. -/
def exDBprem : DB :=
  ⟨[exPremUser, exOther], [exPendTx]⟩

/-- Database with no transactions. -/
def exDBempty : DB :=
  ⟨[exUser], []⟩

/- General lemmas about updateFirst (the update_one embedding). -/

/-- update_one never changes the number of records. -/
theorem updateFirst_length {α : Type} (p : α → Bool) (f : α → α) (l : List α) :
    (updateFirst p f l).length = l.length := by
  induction l with
  | nil => rfl
  | cons x xs ih =>
    simp only [updateFirst]
    split
    · simp
    · simp [ih]

/-- When the update does not change whether a record matches, find_one after
update_one returns the updated record. -/
theorem find?_updateFirst {α : Type} (p : α → Bool) (f : α → α) (l : List α)
    (hpres : ∀ a, p (f a) = p a) :
    (updateFirst p f l).find? p = (l.find? p).map f := by
  induction l with
  | nil => rfl
  | cons x xs ih =>
    by_cases hx : p x = true
    · rw [updateFirst, if_pos hx, List.find?_cons_of_pos _ (by rw [hpres]; exact hx),
        List.find?_cons_of_pos _ hx]
      rfl
    · rw [updateFirst, if_neg hx, List.find?_cons_of_neg _ hx,
        List.find?_cons_of_neg _ hx, ih]

/-- Every record of update_one's output is related to the corresponding
input record: unchanged when `R` is reflexive on it, or `f` of a record
matching `p`. -/
theorem updateFirst_forall₂ {α : Type} (R : α → α → Prop) (p : α → Bool)
    (f : α → α) (hrefl : ∀ a, R a a) (hf : ∀ a, p a = true → R a (f a))
    (l : List α) : List.Forall₂ R l (updateFirst p f l) := by
  induction l with
  | nil => exact List.Forall₂.nil
  | cons x xs ih =>
    rw [updateFirst]
    by_cases hx : p x = true
    · rw [if_pos hx]
      exact List.Forall₂.cons (hf x hx) (List.forall₂_same.2 (fun a _ => hrefl a))
    · rw [if_neg hx]
      exact List.Forall₂.cons (hrefl x) ih

/-- Claim C1: once a Transaction's stored status is "completed" it is
terminal: a check_status call by its owner answers the cached pair
(complete, paid) with the database unchanged and with a result that does
not depend on the provider response (the provider is never contacted), and
a handle_webhook for the same session acknowledges success leaving the
ledger and every user record untouched. -/
theorem completed_is_terminal_and_idempotent
    (db : DB) (sid uid : String) (t t' : PaymentTransaction)
    (hpull : db.payment_transactions.find?
      (fun tr => tr.session_id == sid && tr.user_id == uid) = some t)
    (hct : t.status = "completed")
    (hpush : db.payment_transactions.find?
      (fun tr => tr.session_id == sid) = some t')
    (hct' : t'.status = "completed") :
    (∀ now resp, get_checkout_status sid uid db now resp
        = (db, .ok "complete" "paid")) ∧
    (∀ now, handle_stripe_webhook true db now
        (.ok ⟨"checkout.session.completed", sid⟩) = (db, .success)) := by
  constructor
  · intro now resp
    unfold get_checkout_status
    rw [hpull]
    simp [hct]
  · intro now
    unfold handle_stripe_webhook
    simp [hpush, hct']

/-- Witness for C1 on a concrete database holding a completed transaction. -/
theorem completed_is_terminal_and_idempotent_witness :
    get_checkout_status "sess9" "u1" exDBdone 5 (.ok ⟨"expired", "unpaid"⟩)
        = (exDBdone, .ok "complete" "paid") ∧
    handle_stripe_webhook true exDBdone 5
        (.ok ⟨"checkout.session.completed", "sess9"⟩) = (exDBdone, .success) :=
  ⟨(completed_is_terminal_and_idempotent exDBdone "sess9" "u1" exDoneTx exDoneTx
      rfl rfl rfl rfl).1 5 (.ok ⟨"expired", "unpaid"⟩),
   (completed_is_terminal_and_idempotent exDBdone "sess9" "u1" exDoneTx exDoneTx
      rfl rfl rfl rfl).2 5⟩

/-- Claim C5: initiate_checkout fails with "Invalid plan" for a plan id
outside the catalog, with the ledger unchanged and a result that does not
depend on the provider response (the provider is never called); and when
the provider call fails it answers the propagated Stripe error with the
ledger unchanged — the insert can only happen after a successful provider
call. -/
theorem checkout_error_paths_leave_ledger_unchanged
    (db : DB) (plan origin_url uid : String) :
    (PREMIUM_PLANS.find? (fun p => p.1 == plan) = none →
      ∀ resp, create_checkout_session plan origin_url uid db resp
        = (db, .httpError 400 "Invalid plan")) ∧
    (∀ pinfo, PREMIUM_PLANS.find? (fun p => p.1 == plan) = some pinfo →
      ∀ e, create_checkout_session plan origin_url uid db (.error e)
        = (db, .httpError 400 ("Stripe error: " ++ e))) := by
  constructor
  · intro h resp
    unfold create_checkout_session
    rw [h]
  · intro pinfo h e
    unfold create_checkout_session
    rw [h]

/-- Witness for C5: an unknown plan id is rejected without a provider call,
and a declined provider call propagates the Stripe error. -/
theorem checkout_error_paths_leave_ledger_unchanged_witness :
    create_checkout_session "gold" "https://app.example" "u1" exDBempty
        (.ok ⟨"cs_1", "https://pay.example"⟩)
      = (exDBempty, .httpError 400 "Invalid plan") ∧
    create_checkout_session "starter" "https://app.example" "u1" exDBempty
        (.error "card_declined")
      = (exDBempty, .httpError 400 ("Stripe error: " ++ "card_declined")) :=
  ⟨(checkout_error_paths_leave_ledger_unchanged exDBempty "gold"
      "https://app.example" "u1").1 rfl (.ok ⟨"cs_1", "https://pay.example"⟩),
   (checkout_error_paths_leave_ledger_unchanged exDBempty "starter"
      "https://app.example" "u1").2 _ rfl "card_declined"⟩

/-- Claim C6: check_status answers 404 "Transaction not found", with the
database unchanged and independently of the provider response, whenever no
stored transaction has both the requested session_id and the requesting
user's id — covering both a missing session and a session owned by a
different user, so no cross-user status ever leaks. -/
theorem check_status_not_found_for_foreign_or_missing
    (db : DB) (sid uid : String) (now : ℕ)
    (h : ∀ t ∈ db.payment_transactions, t.session_id = sid → t.user_id ≠ uid) :
    ∀ resp, get_checkout_status sid uid db now resp
      = (db, .httpError 404 "Transaction not found") := by
  intro resp
  have hnone : db.payment_transactions.find?
      (fun t => t.session_id == sid && t.user_id == uid) = none := by
    rw [List.find?_eq_none]
    intro t ht hmatch
    rw [Bool.and_eq_true, beq_iff_eq, beq_iff_eq] at hmatch
    exact h t ht hmatch.1 hmatch.2
  unfold get_checkout_status
  rw [hnone]

/-- Witness for C6: user u2 asking about u1's session sess9 gets 404. -/
theorem check_status_not_found_for_foreign_or_missing_witness :
    get_checkout_status "sess9" "u2" exDBdone 3 (.ok ⟨"open", "unpaid"⟩)
      = (exDBdone, .httpError 404 "Transaction not found") :=
  check_status_not_found_for_foreign_or_missing exDBdone "sess9" "u2" 3
    (by decide) (.ok ⟨"open", "unpaid"⟩)

/-- Claim C7: handle_webhook acknowledges success with the database
unchanged for every parsed event of a type other than
checkout.session.completed and for every completed event whose session
matches no stored transaction; and when signature verification or body
parsing fails it rejects with 400 "Webhook processing failed", also with
the database unchanged (no ledger or user mutation precedes the check). -/
theorem webhook_acks_unknown_and_rejects_invalid
    (db : DB) (now : ℕ) :
    (∀ ev : StripeEvent, ev.etype ≠ "checkout.session.completed" →
        handle_stripe_webhook true db now (.ok ev) = (db, .success)) ∧
    (∀ ev : StripeEvent, ev.etype = "checkout.session.completed" →
        db.payment_transactions.find? (fun t => t.session_id == ev.object_id)
          = none →
        handle_stripe_webhook true db now (.ok ev) = (db, .success)) ∧
    (∀ msg, handle_stripe_webhook true db now (.error msg)
        = (db, .httpError 400 "Webhook processing failed")) := by
  refine ⟨?_, ?_, ?_⟩
  · intro ev hne
    unfold handle_stripe_webhook
    simp [hne]
  · intro ev he hnone
    unfold handle_stripe_webhook
    simp [he, hnone]
  · intro msg
    unfold handle_stripe_webhook
    simp

/-- Witness for C7: an ignored event type, an unknown session, and a
verification failure, on a concrete database. -/
theorem webhook_acks_unknown_and_rejects_invalid_witness :
    handle_stripe_webhook true exDBdone 2 (.ok ⟨"invoice.paid", "sess9"⟩)
      = (exDBdone, .success) ∧
    handle_stripe_webhook true exDBdone 2
        (.ok ⟨"checkout.session.completed", "nosuch"⟩) = (exDBdone, .success) ∧
    handle_stripe_webhook true exDBdone 2 (.error "bad signature")
      = (exDBdone, .httpError 400 "Webhook processing failed") :=
  ⟨(webhook_acks_unknown_and_rejects_invalid exDBdone 2).1
      ⟨"invoice.paid", "sess9"⟩ (by decide),
   (webhook_acks_unknown_and_rejects_invalid exDBdone 2).2.1
      ⟨"checkout.session.completed", "nosuch"⟩ rfl rfl,
   (webhook_acks_unknown_and_rejects_invalid exDBdone 2).2.2 "bad signature"⟩

/-- Claim C8 (refuted as stated, code_bug): the unit amount passed to the
provider is computed as int(price * 100) on binary64 floats, which yields
999 for the 9.99 plan and 4999 for the 49.99 plan but 1998 — not 1999 —
for the 19.99 plan, because the double nearest 19.99 times 100 is just
below 1999 and int() truncates. -/
theorem unit_amount_uses_float_truncation :
    (checkoutSessionCreateArgs "starter" "https://app.example" "u1").map
        StripeSessionCreateArgs.unit_amount = some 999 ∧
    (checkoutSessionCreateArgs "professional" "https://app.example" "u1").map
        StripeSessionCreateArgs.unit_amount = some 1998 ∧
    (checkoutSessionCreateArgs "enterprise" "https://app.example" "u1").map
        StripeSessionCreateArgs.unit_amount = some 4999 := by
  refine ⟨by decide, by decide, by decide⟩

/-- Claim C2: a webhook event of type checkout.session.completed for a
pending transaction's session (delivered with a valid signature, or with no
webhook secret configured — either way the verify-or-parse step yields the
parsed event) acknowledges success, marks the transaction completed and
paid, and grants the owning user is_premium with the transaction's plan and
an expiry of now plus thirty days. -/
theorem webhook_completes_pending_transaction
    (db : DB) (now : ℕ) (sid : String) (t : PaymentTransaction) (u : User)
    (hfind : db.payment_transactions.find?
      (fun tr => tr.session_id == sid) = some t)
    (hpending : t.status = "pending")
    (huser : db.users.find? (fun v => v.id == t.user_id) = some u) :
    (handle_stripe_webhook true db now
        (.ok ⟨"checkout.session.completed", sid⟩)).2 = .success ∧
    (handle_stripe_webhook true db now
        (.ok ⟨"checkout.session.completed", sid⟩)).1.payment_transactions.find?
        (fun tr => tr.session_id == sid)
      = some { t with status := "completed", payment_status := "paid",
                      updated_at := now } ∧
    (handle_stripe_webhook true db now
        (.ok ⟨"checkout.session.completed", sid⟩)).1.users.find?
        (fun v => v.id == t.user_id)
      = some { u with is_premium := true, subscription_plan := some t.plan,
                      subscription_expires := some (now + thirtyDays) } := by
  have hred : handle_stripe_webhook true db now
      (.ok ⟨"checkout.session.completed", sid⟩)
      = (⟨updateFirst (fun v => v.id == t.user_id)
            (fun v => { v with is_premium := true,
                               subscription_plan := some t.plan,
                               subscription_expires := some (now + thirtyDays) })
            db.users,
          updateFirst (fun tr => tr.session_id == sid)
            (fun tr => { tr with status := "completed", payment_status := "paid",
                                 updated_at := now })
            db.payment_transactions⟩,
         .success) := by
    unfold handle_stripe_webhook
    simp [hfind, hpending]
  have htx := find?_updateFirst (fun tr => tr.session_id == sid)
    (fun tr => ({ tr with status := "completed", payment_status := "paid",
                          updated_at := now } : PaymentTransaction))
    db.payment_transactions (fun a => rfl)
  have hus := find?_updateFirst (fun v => v.id == t.user_id)
    (fun v => ({ v with is_premium := true, subscription_plan := some t.plan,
                        subscription_expires := some (now + thirtyDays) } : User))
    db.users (fun a => rfl)
  refine ⟨by rw [hred], ?_, ?_⟩
  · rw [hred]
    show (updateFirst (fun tr => tr.session_id == sid) _
      db.payment_transactions).find? _ = _
    rw [htx, hfind]
    rfl
  · rw [hred]
    show (updateFirst (fun v => v.id == t.user_id) _ db.users).find? _ = _
    rw [hus, huser]
    rfl

/-- Witness for C2 on a concrete pending transaction and its owner. -/
theorem webhook_completes_pending_transaction_witness :
    (handle_stripe_webhook true exDBpend 7
        (.ok ⟨"checkout.session.completed", "sess1"⟩)).2 = .success ∧
    (handle_stripe_webhook true exDBpend 7
        (.ok ⟨"checkout.session.completed", "sess1"⟩)).1.payment_transactions.find?
        (fun tr => tr.session_id == "sess1")
      = some { exPendTx with status := "completed", payment_status := "paid",
                             updated_at := 7 } ∧
    (handle_stripe_webhook true exDBpend 7
        (.ok ⟨"checkout.session.completed", "sess1"⟩)).1.users.find?
        (fun v => v.id == exPendTx.user_id)
      = some { exUser with is_premium := true,
                           subscription_plan := some exPendTx.plan,
                           subscription_expires := some (7 + thirtyDays) } :=
  webhook_completes_pending_transaction exDBpend 7 "sess1" exPendTx exUser
    rfl rfl rfl

/-- Claim C9 (frame of the webhook entitlement write): when the webhook
grants an entitlement, every stored user record keeps its id, username,
email, hashed_password and created_at, and every user whose id differs from
the transaction's user_id is completely unchanged — only is_premium,
subscription_plan and subscription_expires of the matched user may
change. -/
theorem webhook_entitlement_frame
    (db : DB) (now : ℕ) (sid : String) (t : PaymentTransaction)
    (hfind : db.payment_transactions.find?
      (fun tr => tr.session_id == sid) = some t)
    (hnc : t.status ≠ "completed") :
    List.Forall₂ (userFrame t.user_id) db.users
      (handle_stripe_webhook true db now
        (.ok ⟨"checkout.session.completed", sid⟩)).1.users := by
  unfold handle_stripe_webhook
  have hne : (t.status != "completed") = true := by
    simp [hnc]
  simp only [hfind, hne]
  simp only [if_true]
  exact updateFirst_forall₂ _ _ _
    (fun a => ⟨fun _ => rfl, rfl, rfl, rfl, rfl, rfl⟩)
    (fun a ha => ⟨fun hni => absurd (eq_of_beq ha) hni, rfl, rfl, rfl, rfl, rfl⟩)
    db.users

/-- Witness for C9 on a concrete database: granting u1 leaves u2 and all
immutable fields alone. -/
theorem webhook_entitlement_frame_witness :
    List.Forall₂ (userFrame exPendTx.user_id) exDBpend.users
      (handle_stripe_webhook true exDBpend 7
        (.ok ⟨"checkout.session.completed", "sess1"⟩)).1.users :=
  webhook_entitlement_frame exDBpend 7 "sess1" exPendTx rfl (by decide)

/-- Claim C10: the entitlement write overwrites rather than extends — even
for a user who is already premium with a future expiry `e`, reconciling a
later pending transaction through the webhook sets subscription_plan to the
new transaction's plan and subscription_expires to now plus thirty days,
independent of the remaining time `e - now`. -/
theorem entitlement_overwrites_previous_grant
    (db : DB) (now : ℕ) (sid : String) (t : PaymentTransaction) (u : User)
    (e : ℕ)
    (hfind : db.payment_transactions.find?
      (fun tr => tr.session_id == sid) = some t)
    (hpending : t.status = "pending")
    (huser : db.users.find? (fun v => v.id == t.user_id) = some u)
    (hprem : u.is_premium = true)
    (hexp : u.subscription_expires = some e)
    (hfut : now < e) :
    (handle_stripe_webhook true db now
        (.ok ⟨"checkout.session.completed", sid⟩)).1.users.find?
        (fun v => v.id == t.user_id)
      = some { u with is_premium := true, subscription_plan := some t.plan,
                      subscription_expires := some (now + thirtyDays) } := by
  have hred : handle_stripe_webhook true db now
      (.ok ⟨"checkout.session.completed", sid⟩)
      = (⟨updateFirst (fun v => v.id == t.user_id)
            (fun v => { v with is_premium := true,
                               subscription_plan := some t.plan,
                               subscription_expires := some (now + thirtyDays) })
            db.users,
          updateFirst (fun tr => tr.session_id == sid)
            (fun tr => { tr with status := "completed", payment_status := "paid",
                                 updated_at := now })
            db.payment_transactions⟩,
         .success) := by
    unfold handle_stripe_webhook
    simp [hfind, hpending]
  have hus := find?_updateFirst (fun v => v.id == t.user_id)
    (fun v => ({ v with is_premium := true, subscription_plan := some t.plan,
                        subscription_expires := some (now + thirtyDays) } : User))
    db.users (fun a => rfl)
  rw [hred]
  show (updateFirst (fun v => v.id == t.user_id) _ db.users).find? _ = _
  rw [hus, huser]
  rfl

/-- Witness for C10: u1 is premium until time 1000; reconciling at time 5
resets the expiry to 5 plus thirty days, discarding the remaining time. -/
theorem entitlement_overwrites_previous_grant_witness :
    (handle_stripe_webhook true exDBprem 5
        (.ok ⟨"checkout.session.completed", "sess1"⟩)).1.users.find?
        (fun v => v.id == exPendTx.user_id)
      = some { exPremUser with is_premium := true,
                               subscription_plan := some exPendTx.plan,
                               subscription_expires := some (5 + thirtyDays) } :=
  entitlement_overwrites_previous_grant exDBprem 5 "sess1" exPendTx exPremUser
    1000 rfl rfl rfl rfl rfl (by decide)

/-- Claim C3 (refuted as stated, code_bug): for a pending transaction whose
owner polls check_status while the provider reports (complete, paid), the
handler persists the provider status onto the transaction and then raises
an unhandled NameError (the source reads the undefined name
checkout_status), so it neither applies the entitlement — the user list is
untouched — nor returns the provider-reported pair. -/
theorem get_checkout_status_crashes_before_entitlement :
    get_checkout_status "sess1" "u1" exDBpend 7 (.ok ⟨"complete", "paid"⟩)
      = (⟨[exUser, exOther],
          [{ exPendTx with status := "complete", payment_status := "paid",
                           updated_at := 7 }]⟩,
         .pythonError "NameError: name checkout_status is not defined") ∧
    (get_checkout_status "sess1" "u1" exDBpend 7
        (.ok ⟨"complete", "paid"⟩)).1.users = exDBpend.users := by
  refine ⟨by decide, by decide⟩

/-- Claim C4 (refuted as stated, code_bug): after a successful provider
session-creation call, initiate_checkout raises an unhandled
AttributeError/NameError (the source reads session.session_id, which the
provider session does not expose, and the unbound name
checkout_session_request), so no pending Transaction is persisted and no
redirect URL is returned. -/
theorem create_checkout_session_crashes_after_provider_call :
    create_checkout_session "starter" "https://app.example" "u1" exDBempty
        (.ok ⟨"cs_test_1", "https://pay.example/session"⟩)
      = (exDBempty,
         .pythonError "session.session_id and checkout_session_request are undefined") := by
  decide
